import Mathlib

/-!
Shallow embedding of the Trading Bot Mini App client (src/api.js and the two
app variants in src/app.js), together with theorems settling the spec claims.

The first variant of `app.js` (global `state` object and free functions) is
embedded in namespace `V1`; the second variant (the `TradingApp` class) is
embedded in namespace `V2`.  Numbers carried by the backend JSON are modelled
as rationals; DOM regions are modelled as explicit record fields; a fetch whose
outcome matters is modelled by an `Option` parameter (`some` = resolved
payload, `none` = rejected / thrown, which the corresponding `catch` absorbs).
-/

namespace Trading

attribute [local semireducible] Rat.mul Rat.add Rat.sub Rat.inv Rat.ofScientific

/-! ## JavaScript values and the formatters (src/app.js, first variant, lines 486-506) -/

/-- A JavaScript value as seen by `parseFloat`-based formatters: a finite
number, `NaN`, `undefined`, `null`, a string that parses to a number, or a
string that does not parse. -/
inductive JsVal where
  | num (q : Rat)
  | nan
  | undef
  | null
  | strNum (q : Rat)
  | strBad
deriving DecidableEq

/-- Outcome of `parseFloat(value)`: `none` models `NaN`. -/
def parseFloatVal : JsVal → Option Rat
  | JsVal.num q => some q
  | JsVal.strNum q => some q
  | _ => none

/-- JavaScript `x || dflt` applied to an already-parsed number
(`NaN` and `0` are falsy). -/
def jsNumOr (x : Option Rat) (dflt : Rat) : Rat :=
  match x with
  | some q => if q = 0 then dflt else q
  | none => dflt

/-- JavaScript `x || dflt` on a number that is known to be present. -/
def jsOr (a dflt : Rat) : Rat :=
  if a = 0 then dflt else a

/-- The coercion `parseFloat(value) || 0` shared by all three formatters. -/
def parseOr0 (v : JsVal) : Rat := jsNumOr (parseFloatVal v) 0

def digitChar (n : Nat) : Char := Char.ofNat (48 + n)

/-- Exactly two decimal digits, with a leading zero when needed. -/
def twoDigitStr (n : Nat) : String := String.mk [digitChar (n / 10), digitChar (n % 10)]

/-- Insert a comma after every group of three characters, working over the
reversed digit list; `k` is the number of slots left in the current group. -/
def commaGroupRev : List Char → Nat → List Char
  | [], _ => []
  | c :: rest, 0 => ',' :: c :: commaGroupRev rest 2
  | c :: rest, Nat.succ k => c :: commaGroupRev rest k

/-- `en-US` thousands grouping of a digit string. -/
def groupDigits (s : String) : String :=
  String.mk ((commaGroupRev s.data.reverse 3).reverse)

/-- The number of cents of `|q|`, rounded to nearest with ties picking the
larger candidate, as `Number.prototype.toFixed(2)` does. -/
def fixedCents (q : Rat) : Nat := (Rat.floor (100 * |q| + 1 / 2)).toNat

/-- `num.toFixed(2)`: sign of the input, then the integral part, then exactly
two fraction digits. -/
def toFixed2 (q : Rat) : String :=
  (if q < 0 then "-" else "") ++ Nat.repr (fixedCents q / 100) ++ "." ++
    twoDigitStr (fixedCents q % 100)

/-- `num.toLocaleString('en-US', {minimumFractionDigits: 2,
maximumFractionDigits: 2})`: like `toFixed2` but with thousands grouping. -/
def groupedFixed2 (q : Rat) : String :=
  (if q < 0 then "-" else "") ++ groupDigits (Nat.repr (fixedCents q / 100)) ++ "." ++
    twoDigitStr (fixedCents q % 100)

/-- `formatMoney` of the first app variant. -/
def formatMoney (value : JsVal) : String := "$" ++ groupedFixed2 (parseOr0 value)

/-- `formatPrice` of the first app variant (same body as `formatMoney`). -/
def formatPrice (value : JsVal) : String := "$" ++ groupedFixed2 (parseOr0 value)

/-- `formatPercent` of the first app variant: `'+'` for `num >= 0`, then
`num.toFixed(2)` and a percent sign. -/
def formatPercent (value : JsVal) : String :=
  (if 0 ≤ parseOr0 value then "+" else "") ++ toFixed2 (parseOr0 value) ++ "%"

/-! ## API client (src/api.js) -/

/-- A JSON payload as returned by `response.json()`. -/
inductive Json where
  | null
  | bool (b : Bool)
  | num (q : Rat)
  | str (s : String)
  | arr (elems : List Json)
  | obj (fields : List (String × Json))

/-- The two failure modes of `TradingAPI.request`: a thrown
`HTTP error! status: N` on a non-ok response (a transport error carrying the
status code), and a thrown JSON `SyntaxError` when the body fails to parse
(a decode error). -/
inductive ApiError where
  | transport (status : Nat)
  | decode
deriving DecidableEq

/-- A settled `fetch` response: its HTTP status code, and the outcome of
`response.json()` (`none` when the body is not valid JSON). -/
structure HttpResponse where
  status : Nat
  jsonBody : Option Json

/-- `Response.ok`: true exactly when the status is in the 200-299 range. -/
def HttpResponse.ok (r : HttpResponse) : Bool :=
  decide (200 ≤ r.status) && decide (r.status < 300)

/-- `TradingAPI.request` (src/api.js lines 29-53) applied to a settled
response: throw on `!response.ok`, otherwise return `response.json()` outcome,
with a parse failure propagating as a decode error.  No schema validation. -/
def request (r : HttpResponse) : Except ApiError Json :=
  if !r.ok then
    Except.error (ApiError.transport r.status)
  else
    match r.jsonBody with
    | some payload => Except.ok payload
    | none => Except.error ApiError.decode

/-- The client state set up by the `TradingAPI` constructor: the fixed base
URL, and the host-supplied init data (`null` when the Telegram host object is
absent). -/
structure TradingAPI where
  baseURL : String
  initData : Option String
deriving DecidableEq

/-- The `TradingAPI` constructor (src/api.js lines 9-24): fixed base URL, and
`initData` copied from the embedding host when present. -/
def mkTradingAPI (hostInitData : Option String) : TradingAPI :=
  { baseURL := "http://localhost:8000/api", initData := hostInitData }

/-- JavaScript truthiness of the possibly-null `initData` string: `null` and
the empty string are falsy. -/
def isTruthy : Option String → Bool
  | some s => s != ""
  | none => false

/-- The `options` argument to `request`: the endpoint wrappers only ever set
`method`, never `headers`. -/
structure RequestOptions where
  method : String := "GET"
  headers : List (String × String) := []
deriving DecidableEq

/-- The header object
`{'Content-Type': ..., ...(this.initData && {'X-Telegram-Init-Data': ...}), ...options.headers}`
built by `request`, as an ordered key-value list in which a later entry
overrides an earlier one with the same key. -/
def buildHeaders (c : TradingAPI) (opts : RequestOptions) : List (String × String) :=
  [("Content-Type", "application/json")]
    ++ (match c.initData with
        | some s => if s != "" then [("X-Telegram-Init-Data", s)] else []
        | none => [])
    ++ opts.headers

/-- The effective value of a header key under the later-overrides-earlier
object-spread semantics. -/
def getHeader (hs : List (String × String)) (key : String) : Option String :=
  ((hs.filter (fun p => p.1 == key)).getLast?).map (fun p => p.2)

/-- Every endpoint wrapper of `TradingAPI` with the `options` it passes to
`request`: only `/toggle-ai` sets anything, and it only sets `method`. -/
def endpointCalls : List (String × RequestOptions) :=
  [("/portfolio", {}),
   ("/history?limit=20", {}),
   ("/signals?symbols=BTC,ETH,BNB,SOL,XRP,ADA,AVAX,DOT", {}),
   ("/chart/BTC?timeframe=4h&limit=100", {}),
   ("/settings", {}),
   ("/toggle-ai", { method := "POST" }),
   ("/stats/daily?days=30", {})]

/-! ## The backend data model (spec section 3, fields as read by the renderers) -/

/-- One open position, keyed by symbol in the portfolio snapshot. -/
structure Position where
  amount : Rat
  entry_price : Rat
  current_price : Rat
  current_value : Rat
  pnl : Rat
  pnl_pct : Rat
  stop_loss : Rat
  take_profit : Rat
deriving DecidableEq

/-- The `/portfolio` payload; `positions` is the symbol-keyed map in
insertion order, as `Object.entries` would enumerate it. -/
structure PortfolioData where
  enabled : Bool
  balance_usdt : Rat
  positions_value : Rat
  total_value : Rat
  total_pnl : Rat
  total_pnl_pct : Rat
  positions : List (String × Position)
deriving DecidableEq

/-- One closed trade from `/history`. -/
structure TradeRecord where
  symbol : String
  entry_price : Option Rat
  exit_price : Option Rat
  profit_usdt : Rat
  profit_pct : Rat
  close_time : Option String
deriving DecidableEq

/-- The aggregate statistics block of the `/history` payload. -/
structure Stats where
  winrate : Rat
  total_trades : Nat
  wins : Nat
  losses : Nat
deriving DecidableEq

/-- The `/history` payload. -/
structure HistoryData where
  trades : List TradeRecord
  stats : Stats
deriving DecidableEq

/-- One trading signal from `/signals`. -/
structure Signal where
  symbol : String
  signal : String
  confidence : Rat
  price : Rat
  trend : String
  rsi : Rat
deriving DecidableEq

/-- The `/signals` payload. -/
structure SignalsData where
  signals : List Signal
deriving DecidableEq

/-- One point of the `/stats/daily` equity series. -/
structure EquityPoint where
  date : String
  value : Rat
deriving DecidableEq

/-- The kinds of backend fetches the app can issue. -/
inductive FetchKind where
  | portfolio
  | history
  | signals
  | dailyStats
deriving DecidableEq, BEq

/-! ## Chart lifecycle (shared by both variants) -/

/-- The chart subsystem: `current` is the handle stored in
`state.equityChart` / `this.charts.equity` (it may be stale after a destroy),
`alive` lists the chart instances that have been constructed and not yet
destroyed, and `nextId` is a fresh identifier for the next construction. -/
structure ChartState where
  current : Option Nat
  alive : List Nat
  nextId : Nat
deriving DecidableEq

/-- `chart.destroy()` applied to the stored handle when one exists. -/
def ChartState.destroyCurrent (s : ChartState) : ChartState :=
  match s.current with
  | some c => { s with alive := s.alive.erase c }
  | none => s

/-- `new Chart(...)`: constructs a fresh instance and stores its handle. -/
def ChartState.create (s : ChartState) : ChartState :=
  { s with current := some s.nextId, alive := s.nextId :: s.alive,
           nextId := s.nextId + 1 }

/-- The well-formedness invariant of the chart subsystem: the alive instances
are at most the stored one, and the stored handle predates `nextId`. -/
def chartInv (s : ChartState) : Bool :=
  (match s.alive, s.current with
   | [], _ => true
   | [c], some cc => c == cc
   | _, _ => false) &&
  (match s.current with
   | some c => decide (c < s.nextId)
   | none => true)

/-! ## First app variant (src/app.js lines 1-550: global `state`, free functions) -/

namespace V1

/-- One rendered position card (`renderPositionsList` loop body): the symbol
line, the `positive`/`negative` PnL class, and the PnL text. -/
structure Card where
  symbol : String
  isProfit : Bool
  pnlText : String
deriving DecidableEq

/-- The card built for one `Object.entries` pair, with the `pnl || 0` and
`pnl_pct || 0` fallbacks and the `pnl >= 0` profit test of the source. -/
def mkPositionCard (entry : String × Position) : Card :=
  { symbol := entry.1 ++ "/USDT"
    isProfit := decide (0 ≤ jsOr entry.2.pnl 0)
    pnlText := formatMoney (JsVal.num (jsOr entry.2.pnl 0)) ++ " (" ++
      formatPercent (JsVal.num (jsOr entry.2.pnl_pct 0)) ++ ")" }

/-- The `#portfolio-list` / `#no-positions` DOM region. -/
structure PositionsDom where
  containerVisible : Bool
  emptyStateVisible : Bool
  cards : List Card
deriving DecidableEq

/-- `renderPositionsList` (lines 190-239): on an empty map it hides the list,
shows the placeholder and returns without touching the card contents; otherwise
it shows the list and rebuilds the cards from the entries. -/
def renderPositionsList (prev : PositionsDom) (positions : List (String × Position)) :
    PositionsDom :=
  if positions.length = 0 then
    { prev with containerVisible := false, emptyStateVisible := true }
  else
    { containerVisible := true, emptyStateVisible := false,
      cards := positions.map mkPositionCard }

/-- The header fields written by `renderPortfolio` before the positions list. -/
structure Summary where
  aiActive : Bool
  balanceText : String
  positionsValueText : String
  totalValueText : String
  pnlText : String
  pnlPositive : Bool
deriving DecidableEq

/-- The header part of `renderPortfolio` (lines 148-184). -/
def mkSummary (data : PortfolioData) : Summary :=
  { aiActive := data.enabled
    balanceText := formatMoney (JsVal.num data.balance_usdt)
    positionsValueText := formatMoney (JsVal.num data.positions_value)
    totalValueText := formatMoney (JsVal.num data.total_value)
    pnlText := formatMoney (JsVal.num data.total_pnl) ++ " (" ++
      formatPercent (JsVal.num data.total_pnl_pct) ++ ")"
    pnlPositive := decide (0 ≤ data.total_pnl) }

/-- One rendered history row (`renderHistory` loop body): the
`profit`/`loss` icon class uses the strict test `trade.profit_usdt > 0`. -/
structure HistoryItem where
  symbol : String
  isProfit : Bool
  amountText : String
deriving DecidableEq

/-- The history row built for one trade, with the strict `> 0` profit test of
the source. -/
def mkHistoryItem (t : TradeRecord) : HistoryItem :=
  { symbol := t.symbol ++ "/USDT"
    isProfit := decide (0 < t.profit_usdt)
    amountText := formatMoney (JsVal.num t.profit_usdt) }

/-- The `#history-list` / `#no-history` DOM region. -/
structure HistoryDom where
  containerVisible : Bool
  emptyStateVisible : Bool
  items : List HistoryItem
deriving DecidableEq

/-- `renderHistory` (lines 244-280). -/
def renderHistory (prev : HistoryDom) (data : HistoryData) : HistoryDom :=
  if data.trades.length = 0 then
    { prev with containerVisible := false, emptyStateVisible := true }
  else
    { containerVisible := true, emptyStateVisible := false,
      items := data.trades.map mkHistoryItem }

/-- `renderEquityChart` (lines 333-348): destroy the previous instance first,
then return without drawing when the series is empty, otherwise construct the
new chart. -/
def renderEquityChart (s : ChartState) (chartData : List EquityPoint) : ChartState :=
  let s1 := s.destroyCurrent
  if chartData.length = 0 then s1 else s1.create

/-- The DOM regions the first variant's full reload touches. -/
structure Dom where
  summary : Option Summary
  positionsDom : PositionsDom
  historyDom : HistoryDom
  statsDom : Option Stats
  chart : ChartState
deriving DecidableEq

/-- `loadPortfolio` (lines 103-111): its own `try`/`catch`; a failed fetch
leaves the DOM untouched. -/
def loadPortfolio (res : Option PortfolioData) (d : Dom) : Dom :=
  match res with
  | some data =>
    { d with summary := some (mkSummary data),
             positionsDom := renderPositionsList d.positionsDom data.positions }
  | none => d

/-- `loadHistory` (lines 113-122): its own `try`/`catch`. -/
def loadHistory (res : Option HistoryData) (d : Dom) : Dom :=
  match res with
  | some data =>
    { d with historyDom := renderHistory d.historyDom data,
             statsDom := some data.stats }
  | none => d

/-- `loadEquityCurve` (lines 134-141): its own `try`/`catch`. -/
def loadEquityCurve (res : Option (List EquityPoint)) (d : Dom) : Dom :=
  match res with
  | some pts => { d with chart := renderEquityChart d.chart pts }
  | none => d

/-- `loadAllData` (lines 86-101): `Promise.all` of the three region loads;
they touch disjoint DOM regions, so the settled DOM is their composition. -/
def loadAllData (rp : Option PortfolioData) (rh : Option HistoryData)
    (re : Option (List EquityPoint)) (d : Dom) : Dom :=
  loadEquityCurve re (loadHistory rh (loadPortfolio rp d))

/-- The part of the global `state` object that `switchTab` consults. -/
structure AppState where
  currentTab : String
  signals : Option SignalsData
deriving DecidableEq

/-- `switchTab` (lines 66-83) together with the `loadSignals` it may trigger:
returns the updated state and the list of fetches the call issues.
`fetchResult` is the outcome of the signals fetch if one is issued. -/
def switchTab (st : AppState) (tabName : String) (fetchResult : Option SignalsData) :
    AppState × List FetchKind :=
  let st1 := { st with currentTab := tabName }
  if tabName = "signals" ∧ st1.signals = none then
    match fetchResult with
    | some data => ({ st1 with signals := some data }, [FetchKind.signals])
    | none => (st1, [FetchKind.signals])
  else (st1, [])

/-- The guard in the `startAutoRefresh` tick (lines 474-482): refresh only
when not loading and the document is visible. -/
def autoRefreshTickIssues (loading visible : Bool) : Bool :=
  !loading && visible

/-- The refresh-button click handler (lines 45-48): it calls `loadAllData`
unconditionally, with no busy-flag check. -/
def refreshClickHandlerIssues (_loading : Bool) : Bool :=
  true

/-- Whether the refresh button accepts pointer clicks: `showLoading` sets
`pointer-events: none` while the busy flag is up. -/
def refreshButtonClickable (loading : Bool) : Bool :=
  !loading

end V1

/-! ## Second app variant (src/app.js lines 551-993: the `TradingApp` class) -/

namespace V2

/-- One rendered position card of `TradingApp.loadPortfolio`: the
`profit`/`loss` class uses `pos.pnl >= 0` with no fallback. -/
structure Card where
  symbol : String
  isProfit : Bool
  pnlText : String
deriving DecidableEq

/-- The card built for one `Object.entries` pair (lines 743-784). -/
def mkPositionCard (entry : String × Position) : Card :=
  { symbol := entry.1
    isProfit := decide (0 ≤ entry.2.pnl)
    pnlText := "$" ++ toFixed2 entry.2.pnl ++ " (" ++ toFixed2 entry.2.pnl_pct ++ "%)" }

/-- The `#positions-list` container contents after `loadPortfolio` runs: the
empty-state markup, or the rebuilt card list. -/
inductive PositionsContent where
  | emptyState
  | cards (cs : List Card)
deriving DecidableEq

/-- The container rewrite of `TradingApp.loadPortfolio` (lines 726-784):
empty map means the empty-state markup replaces the container contents. -/
def renderPositions (positions : List (String × Position)) : PositionsContent :=
  if positions.length = 0 then PositionsContent.emptyState
  else PositionsContent.cards (positions.map mkPositionCard)

/-- One rendered trade card of `TradingApp.loadHistory`: the
`profit`/`loss` class uses `trade.profit_usdt >= 0`. -/
structure TradeCard where
  symbol : String
  isProfit : Bool
  amountText : String
deriving DecidableEq

/-- The trade card built for one history record (lines 860-879). -/
def mkTradeCard (t : TradeRecord) : TradeCard :=
  { symbol := t.symbol
    isProfit := decide (0 ≤ t.profit_usdt)
    amountText := "$" ++ toFixed2 t.profit_usdt }

/-- The `#history-list` container contents after `loadHistory` runs. -/
inductive HistoryContent where
  | emptyState
  | cards (cs : List TradeCard)
deriving DecidableEq

/-- The container rewrite of `TradingApp.loadHistory` (lines 848-884). -/
def renderHistory (data : HistoryData) : HistoryContent :=
  if data.trades.length = 0 then HistoryContent.emptyState
  else HistoryContent.cards (data.trades.map mkTradeCard)

/-- One rendered signal card of `TradingApp.loadSignals`. -/
structure SignalCard where
  symbol : String
  badge : String
deriving DecidableEq

/-- The signal card built for one signal (lines 821-841). -/
def mkSignalCard (s : Signal) : SignalCard :=
  { symbol := s.symbol
    badge := if s.signal = "BUY" then "buy"
             else if s.signal = "SELL" then "sell" else "hold" }

/-- The `#signals-list` container contents after `loadSignals` runs. -/
inductive SignalsContent where
  | emptyState
  | cards (cs : List SignalCard)
deriving DecidableEq

/-- The container rewrite of `TradingApp.loadSignals` (lines 809-846). -/
def renderSignals (data : SignalsData) : SignalsContent :=
  if data.signals.length = 0 then SignalsContent.emptyState
  else SignalsContent.cards (data.signals.map mkSignalCard)

/-- The overview header fields written by `TradingApp.loadOverview`. -/
structure Summary where
  aiActive : Bool
  balanceText : String
  pnlProfit : Bool
deriving DecidableEq

/-- The header part of `TradingApp.loadOverview` (lines 618-635). -/
def mkSummary (p : PortfolioData) : Summary :=
  { aiActive := p.enabled
    balanceText := "$" ++ groupedFixed2 p.balance_usdt
    pnlProfit := decide (0 ≤ p.total_pnl) }

/-- `TradingApp.loadEquityCurve` chart lifecycle (lines 652-724): return
before any teardown when the series is empty or missing; otherwise destroy the
previous instance and construct the new one. -/
def loadEquityChart (s : ChartState) (data : List EquityPoint) : ChartState :=
  if data.length = 0 then s
  else (s.destroyCurrent).create

/-- The DOM regions `TradingApp.loadAllData` touches. -/
structure Dom where
  overviewSummary : Option Summary
  overviewStats : Option Stats
  chart : ChartState
  positions : Option PositionsContent
  signalsList : Option SignalsContent
  historyList : Option HistoryContent
deriving DecidableEq

/-- `TradingApp.loadOverview` (lines 618-650): one `try`/`catch` around the
portfolio fetch, the header render, the (internally caught) equity-curve load,
and the stats fetch-and-render, in that order. -/
def loadOverview (pRes : Option PortfolioData) (eRes : Option (List EquityPoint))
    (hRes : Option HistoryData) (d : Dom) : Dom :=
  match pRes with
  | none => d
  | some p =>
    let d1 := { d with overviewSummary := some (mkSummary p) }
    let d2 := match eRes with
      | some pts => { d1 with chart := loadEquityChart d1.chart pts }
      | none => d1
    match hRes with
    | none => d2
    | some h => { d2 with overviewStats := some h.stats }

/-- `TradingApp.loadPortfolio` (lines 726-789): its own `try`/`catch`. -/
def loadPortfolio (res : Option PortfolioData) (d : Dom) : Dom :=
  match res with
  | some p => { d with positions := some (renderPositions p.positions) }
  | none => d

/-- `TradingApp.loadSignals` (lines 809-846): its own `try`/`catch`. -/
def loadSignals (res : Option SignalsData) (d : Dom) : Dom :=
  match res with
  | some s => { d with signalsList := some (renderSignals s) }
  | none => d

/-- `TradingApp.loadHistory` (lines 848-884): its own `try`/`catch`. -/
def loadHistory (res : Option HistoryData) (d : Dom) : Dom :=
  match res with
  | some h => { d with historyList := some (renderHistory h) }
  | none => d

/-- `TradingApp.loadAllData` (lines 602-614): `Promise.all` of the four
region loads, which touch disjoint DOM regions. -/
def loadAllData (pRes : Option PortfolioData) (eRes : Option (List EquityPoint))
    (hRes : Option HistoryData) (pfRes : Option PortfolioData)
    (sgRes : Option SignalsData) (hiRes : Option HistoryData) (d : Dom) : Dom :=
  loadHistory hiRes (loadSignals sgRes (loadPortfolio pfRes (loadOverview pRes eRes hRes d)))

/-- The fetches issued by `TradingApp.loadTabData` for one tab.  For the
overview tab the daily-stats and stats-history fetches are only reached when
the portfolio fetch succeeds (`pOk`). -/
def tabFetches (pOk : Bool) (tabName : String) : List FetchKind :=
  if tabName = "overview" then
    FetchKind.portfolio ::
      (if pOk then [FetchKind.dailyStats, FetchKind.history] else [])
  else if tabName = "portfolio" then [FetchKind.portfolio]
  else if tabName = "signals" then [FetchKind.signals]
  else if tabName = "history" then [FetchKind.history]
  else []

/-- `TradingApp.switchTab` (lines 922-934): updates `currentTab` and always
calls `loadTabData` for the chosen tab. -/
def switchTab (_currentTab tabName : String) (pOk : Bool) : String × List FetchKind :=
  (tabName, tabFetches pOk tabName)

/-- The `startAutoRefresh` tick of the class variant (lines 959-963): it
calls `loadTabData` unconditionally, with no busy flag. -/
def autoRefreshTickIssues (_inFlight : Bool) : Bool :=
  true

/-- The refresh-button handler of the class variant (lines 912-915): it calls
`loadAllData` unconditionally. -/
def refreshClickHandlerIssues (_inFlight : Bool) : Bool :=
  true

end V2


lemma twoDigitStr_length (n : Nat) : (twoDigitStr n).length = 2 := rfl

lemma str_append_assoc (a b c : String) : a ++ b ++ c = a ++ (b ++ c) := by
  apply String.ext
  simp [String.data_append]

lemma jsOr_zero_nonneg (q : Rat) : 0 ≤ jsOr q 0 ↔ 0 ≤ q := by
  unfold jsOr
  by_cases h : q = 0 <;> simp [h]

/-- A closed trade whose `profit_usdt` is exactly zero. -/
def zeroTrade : TradeRecord :=
  { symbol := "BTC", entry_price := none, exit_price := none,
    profit_usdt := 0, profit_pct := 0, close_time := none }

/-- C10 -/
theorem claim_C10 : ∀ v : JsVal,
    (parseFloatVal v = none →
      formatMoney v = "$0.00" ∧ formatPrice v = "$0.00" ∧ formatPercent v = "+0.00%") ∧
    (∃ pre frac, formatMoney v = "$" ++ pre ++ "." ++ frac ∧ frac.length = 2) ∧
    (∃ pre frac, formatPrice v = "$" ++ pre ++ "." ++ frac ∧ frac.length = 2) ∧
    ((formatPercent v).data.head? = some '+' ↔ 0 ≤ parseOr0 v) := by
  intro v
  refine ⟨?_, ?_, ?_, ?_⟩
  · intro h
    cases v <;> first
      | decide
      | simp [parseFloatVal] at h
  · refine ⟨(if parseOr0 v < 0 then "-" else "") ++
      groupDigits (Nat.repr (fixedCents (parseOr0 v) / 100)),
      twoDigitStr (fixedCents (parseOr0 v) % 100), ?_, rfl⟩
    simp [formatMoney, groupedFixed2, str_append_assoc]
  · refine ⟨(if parseOr0 v < 0 then "-" else "") ++
      groupDigits (Nat.repr (fixedCents (parseOr0 v) / 100)),
      twoDigitStr (fixedCents (parseOr0 v) % 100), ?_, rfl⟩
    simp [formatPrice, groupedFixed2, str_append_assoc]
  · by_cases h : (0 : Rat) ≤ parseOr0 v
    · simp [formatPercent, toFixed2, h, String.data_append]
    · have h2 : parseOr0 v < 0 := not_le.mp h
      simp [formatPercent, toFixed2, h, h2, String.data_append]

/-- C10 witness -/
theorem claim_C10_witness :
    parseFloatVal JsVal.strBad = none ∧
    formatMoney JsVal.strBad = "$0.00" ∧ formatPercent JsVal.strBad = "+0.00%" :=
  ⟨rfl, ((claim_C10 JsVal.strBad).1 rfl).1, ((claim_C10 JsVal.strBad).1 rfl).2.2⟩

/-- C5 -/
theorem claim_C5 : ∀ r : HttpResponse,
    (¬ (200 ≤ r.status ∧ r.status < 300) →
      request r = Except.error (ApiError.transport r.status)) ∧
    (∀ payload, 200 ≤ r.status → r.status < 300 → r.jsonBody = some payload →
      request r = Except.ok payload) ∧
    (200 ≤ r.status → r.status < 300 → r.jsonBody = none →
      request r = Except.error ApiError.decode) := by
  intro r
  refine ⟨?_, ?_, ?_⟩
  · intro h
    simp [request, HttpResponse.ok]
    intro h1 h2
    exact absurd ⟨h1, h2⟩ h
  · intro payload h1 h2 h3
    simp [request, HttpResponse.ok, h1, h2, h3]
  · intro h1 h2 h3
    simp [request, HttpResponse.ok, h1, h2, h3]

/-- C5 witness -/
theorem claim_C5_witness :
    request ⟨404, some (Json.str "nope")⟩ = Except.error (ApiError.transport 404) ∧
    request ⟨200, some (Json.obj [])⟩ = Except.ok (Json.obj []) ∧
    request ⟨200, none⟩ = Except.error ApiError.decode :=
  ⟨(claim_C5 ⟨404, some (Json.str "nope")⟩).1 (by decide),
   (claim_C5 ⟨200, some (Json.obj [])⟩).2.1 (Json.obj []) (by decide) (by decide) rfl,
   (claim_C5 ⟨200, none⟩).2.2 (by decide) (by decide) rfl⟩

/-- C9 -/
theorem claim_C9 : ∀ (t : TradeRecord) (e : String × Position),
    ((V1.mkHistoryItem t).isProfit = true ↔ 0 < t.profit_usdt) ∧
    ((V2.mkTradeCard t).isProfit = true ↔ 0 ≤ t.profit_usdt) ∧
    ((V1.mkPositionCard e).isProfit = true ↔ 0 ≤ e.2.pnl) ∧
    ((V2.mkPositionCard e).isProfit = true ↔ 0 ≤ e.2.pnl) ∧
    ((V1.mkHistoryItem zeroTrade).isProfit = false) ∧
    ((V2.mkTradeCard zeroTrade).isProfit = true) := by
  intro t e
  refine ⟨?_, ?_, ?_, ?_, by decide, by decide⟩
  · simp [V1.mkHistoryItem]
  · simp [V2.mkTradeCard]
  · simp [V1.mkPositionCard, jsOr_zero_nonneg]
  · simp [V2.mkPositionCard]

lemma headers_of_endpoint (c : TradingAPI) (opts : RequestOptions)
    (h : opts.headers = []) :
    getHeader (buildHeaders c opts) "Content-Type" = some "application/json" ∧
    getHeader (buildHeaders c opts) "X-Telegram-Init-Data" =
      (if isTruthy c.initData then c.initData else none) := by
  cases hc : c.initData with
  | none =>
    simp [buildHeaders, getHeader, isTruthy, hc, h]
  | some s =>
    by_cases hs : s = ""
    · simp [buildHeaders, getHeader, isTruthy, hc, h, hs]
    · simp [buildHeaders, getHeader, isTruthy, hc, h, hs]

/-- C8 -/
theorem claim_C8 : ∀ c : TradingAPI,
    endpointCalls.Forall (fun e =>
      getHeader (buildHeaders c e.2) "Content-Type" = some "application/json" ∧
      getHeader (buildHeaders c e.2) "X-Telegram-Init-Data" =
        (if isTruthy c.initData then c.initData else none)) := by
  intro c
  simp only [endpointCalls, List.Forall]
  exact ⟨headers_of_endpoint c { } rfl, headers_of_endpoint c { } rfl,
    headers_of_endpoint c { } rfl, headers_of_endpoint c { } rfl,
    headers_of_endpoint c { } rfl, headers_of_endpoint c { method := "POST" } rfl,
    headers_of_endpoint c { } rfl⟩

/-- C2 -/
theorem claim_C2 : ∀ (rp : Option PortfolioData) (rh : Option HistoryData)
    (re : Option (List EquityPoint)) (d : V1.Dom)
    (pRes : Option PortfolioData) (eRes : Option (List EquityPoint))
    (hRes : Option HistoryData) (pfRes : Option PortfolioData)
    (sgRes : Option SignalsData) (hiRes : Option HistoryData) (d2 : V2.Dom),
    ((V1.loadAllData rp rh re d).summary =
      rp.elim d.summary (fun p => some (V1.mkSummary p))) ∧
    ((V1.loadAllData rp rh re d).positionsDom =
      rp.elim d.positionsDom (fun p => V1.renderPositionsList d.positionsDom p.positions)) ∧
    ((V1.loadAllData rp rh re d).historyDom =
      rh.elim d.historyDom (fun h => V1.renderHistory d.historyDom h)) ∧
    ((V1.loadAllData rp rh re d).statsDom =
      rh.elim d.statsDom (fun h => some h.stats)) ∧
    ((V1.loadAllData rp rh re d).chart =
      re.elim d.chart (fun pts => V1.renderEquityChart d.chart pts)) ∧
    ((V2.loadAllData pRes eRes hRes pfRes sgRes hiRes d2).positions =
      pfRes.elim d2.positions (fun p => some (V2.renderPositions p.positions))) ∧
    ((V2.loadAllData pRes eRes hRes pfRes sgRes hiRes d2).signalsList =
      sgRes.elim d2.signalsList (fun s => some (V2.renderSignals s))) ∧
    ((V2.loadAllData pRes eRes hRes pfRes sgRes hiRes d2).historyList =
      hiRes.elim d2.historyList (fun h => some (V2.renderHistory h))) ∧
    ((V2.loadAllData pRes eRes hRes pfRes sgRes hiRes d2).overviewSummary =
      pRes.elim d2.overviewSummary (fun p => some (V2.mkSummary p))) ∧
    ((V2.loadAllData pRes eRes hRes pfRes sgRes hiRes d2).chart =
      pRes.elim d2.chart (fun _ =>
        eRes.elim d2.chart (fun pts => V2.loadEquityChart d2.chart pts))) ∧
    ((V2.loadAllData pRes eRes hRes pfRes sgRes hiRes d2).overviewStats =
      pRes.elim d2.overviewStats (fun _ =>
        hRes.elim d2.overviewStats (fun h => some h.stats))) := by
  intro rp rh re d pRes eRes hRes pfRes sgRes hiRes d2
  refine ⟨?_, ?_, ?_, ?_, ?_, ?_, ?_, ?_, ?_, ?_, ?_⟩ <;>
    cases rp <;> cases rh <;> cases re <;>
    cases pRes <;> cases eRes <;> cases hRes <;>
    cases pfRes <;> cases sgRes <;> cases hiRes <;>
    rfl

/-- C7 -/
theorem claim_C7 : ∀ (p : PortfolioData) (d : V1.Dom) (d2 : V2.Dom),
    p.positions = [] →
    ((V1.loadPortfolio (some p) d).positionsDom.emptyStateVisible = true ∧
     (V1.loadPortfolio (some p) d).positionsDom.containerVisible = false ∧
     (V1.loadPortfolio (some p) d).positionsDom.cards = d.positionsDom.cards ∧
     (V2.loadPortfolio (some p) d2).positions = some V2.PositionsContent.emptyState) := by
  intro p d d2 h
  refine ⟨?_, ?_, ?_, ?_⟩ <;>
    simp [V1.loadPortfolio, V1.renderPositionsList, V2.loadPortfolio,
      V2.renderPositions, h]

/-- A portfolio snapshot with no open positions. -/
def emptyPortfolio : PortfolioData :=
  { enabled := true, balance_usdt := 1000, positions_value := 0,
    total_value := 1000, total_pnl := 0, total_pnl_pct := 0, positions := [] }

/-- A chart-subsystem state with one alive chart instance stored. -/
def oneChartState : ChartState :=
  { current := some 0, alive := [0], nextId := 1 }

/-- A V1 DOM with one live chart and blank regions. -/
def sampleDom1 : V1.Dom :=
  { summary := none,
    positionsDom := { containerVisible := true, emptyStateVisible := false, cards := [] },
    historyDom := { containerVisible := true, emptyStateVisible := false, items := [] },
    statsDom := none,
    chart := oneChartState }

/-- A V2 DOM with one live chart and blank regions. -/
def sampleDom2 : V2.Dom :=
  { overviewSummary := none, overviewStats := none, chart := oneChartState,
    positions := none, signalsList := none, historyList := none }

/-- C7 witness -/
theorem claim_C7_witness :
    emptyPortfolio.positions = [] ∧
    (V1.loadPortfolio (some emptyPortfolio) sampleDom1).positionsDom.emptyStateVisible = true ∧
    (V2.loadPortfolio (some emptyPortfolio) sampleDom2).positions =
      some V2.PositionsContent.emptyState :=
  ⟨rfl, (claim_C7 emptyPortfolio sampleDom1 sampleDom2 rfl).1,
    (claim_C7 emptyPortfolio sampleDom1 sampleDom2 rfl).2.2.2⟩

lemma forall₂_map_self {α β : Type} (f : α → β) (R : β → α → Prop)
    (l : List α) (h : ∀ a ∈ l, R (f a) a) : List.Forall₂ R (l.map f) l := by
  induction l with
  | nil => simp
  | cons a t ih =>
    simp only [List.map_cons]
    exact List.Forall₂.cons (h a (by simp))
      (ih fun x hx => h x (by simp [hx]))

/-- C6 -/
theorem claim_C6 : ∀ (positions : List (String × Position)) (prev : V1.PositionsDom),
    positions ≠ [] →
    ((V1.renderPositionsList prev positions).cards.length = positions.length ∧
     List.Forall₂ (fun (c : V1.Card) (e : String × Position) =>
         c.isProfit = true ↔ 0 ≤ e.2.pnl)
       (V1.renderPositionsList prev positions).cards positions ∧
     V2.renderPositions positions =
       V2.PositionsContent.cards (positions.map V2.mkPositionCard) ∧
     (positions.map V2.mkPositionCard).length = positions.length ∧
     List.Forall₂ (fun (c : V2.Card) (e : String × Position) =>
         c.isProfit = true ↔ 0 ≤ e.2.pnl)
       (positions.map V2.mkPositionCard) positions) := by
  intro positions prev h
  have hlen : ¬ positions.length = 0 := by
    simpa [List.length_eq_zero] using h
  refine ⟨?_, ?_, ?_, ?_, ?_⟩
  · simp [V1.renderPositionsList, hlen]
  · simp only [V1.renderPositionsList, hlen, if_false]
    exact forall₂_map_self _ _ _ fun a _ => by
      simp [V1.mkPositionCard, jsOr_zero_nonneg]
  · simp [V2.renderPositions, hlen]
  · simp
  · exact forall₂_map_self _ _ _ fun a _ => by simp [V2.mkPositionCard]

/-- Sample open positions. -/
def samplePositions : List (String × Position) :=
  [("BTC", { amount := 1/2, entry_price := 100, current_price := 110,
             current_value := 55, pnl := 5, pnl_pct := 10,
             stop_loss := 90, take_profit := 130 }),
   ("ETH", { amount := 2, entry_price := 50, current_price := 49,
             current_value := 98, pnl := -2, pnl_pct := -2,
             stop_loss := 45, take_profit := 60 })]

/-- C6 witness -/
theorem claim_C6_witness :
    samplePositions ≠ [] ∧
    (V1.renderPositionsList sampleDom1.positionsDom samplePositions).cards.length =
      samplePositions.length :=
  ⟨by decide,
   (claim_C6 samplePositions sampleDom1.positionsDom (by decide)).1⟩

/-- A non-empty signals payload as returned by a successful signals fetch. -/
def sampleSignals : SignalsData :=
  { signals := [{ symbol := "BTC", signal := "BUY", confidence := 80,
                  price := 50000, trend := "BULLISH", rsi := 55 }] }

/-- The first variant's state right after startup: overview tab, no cached
signals snapshot. -/
def v1FreshState : V1.AppState := { currentTab := "overview", signals := none }

/-- C1 counterexample: in the first variant, after one successful
`switchTab('signals')` the snapshot is cached, so the second consecutive call
issues zero signals fetches, not exactly one. -/
theorem claim_C1_counterexample :
    ¬ ((V1.switchTab (V1.switchTab v1FreshState "signals" (some sampleSignals)).1
          "signals" (some sampleSignals)).2.count FetchKind.signals = 1) := by
  decide

/-- C1 amended: neither variant's `switchTab('signals')` ever fetches
portfolio or history; the class variant issues exactly one signals fetch per
call; the global-state variant issues one signals fetch exactly when no
signals snapshot is cached, so the second of two consecutive calls issues
none. -/
theorem claim_C1_amended : ∀ (st : V1.AppState) (res res2 : Option SignalsData)
    (d : SignalsData) (pOk : Bool),
    ((V1.switchTab st "signals" res).2.count FetchKind.portfolio = 0) ∧
    ((V1.switchTab st "signals" res).2.count FetchKind.history = 0) ∧
    ((V1.switchTab st "signals" res).2.count FetchKind.signals =
      (if st.signals = none then 1 else 0)) ∧
    ((V1.switchTab (V1.switchTab st "signals" (some d)).1 "signals" res2).2.count
        FetchKind.signals = 0) ∧
    (V2.tabFetches pOk "signals" = [FetchKind.signals]) ∧
    ((V2.tabFetches pOk "signals").count FetchKind.signals = 1) ∧
    ((V2.tabFetches pOk "signals").count FetchKind.portfolio = 0) ∧
    ((V2.tabFetches pOk "signals").count FetchKind.history = 0) := by
  intro st res res2 d pOk
  refine ⟨?_, ?_, ?_, ?_, by cases pOk <;> decide, by cases pOk <;> decide,
    by cases pOk <;> decide, by cases pOk <;> decide⟩ <;>
    cases h : st.signals <;> cases res <;> cases res2 <;>
    simp [V1.switchTab, h, List.count_cons, List.count_nil] <;>
    decide

/-- C3 counterexample: in the class variant, rebuilding with an empty series
returns before the teardown, so the previously alive chart instance survives —
the previous chart is not torn down as the claim requires. -/
theorem claim_C3_counterexample :
    ¬ ((V2.loadEquityChart oneChartState []).alive = []) := by
  decide

/-- C3 amended: in both variants at most one chart instance is ever alive and
a rebuild with a non-empty series destroys the previously stored instance
first; on an empty series nothing is drawn in either variant, and the first
variant also tears the previous chart down while the class variant leaves the
chart state untouched. -/
theorem claim_C3_amended : ∀ (s : ChartState) (data : List EquityPoint),
    chartInv s = true →
    (chartInv (V1.renderEquityChart s data) = true ∧
     chartInv (V2.loadEquityChart s data) = true ∧
     (V1.renderEquityChart s data).alive.length ≤ 1 ∧
     (V2.loadEquityChart s data).alive.length ≤ 1 ∧
     (∀ c, s.current = some c → c ∉ (V1.renderEquityChart s data).alive) ∧
     (∀ c, s.current = some c → data ≠ [] →
       c ∉ (V2.loadEquityChart s data).alive) ∧
     (data = [] → (V1.renderEquityChart s data).alive = [] ∧
       (V1.renderEquityChart s data).nextId = s.nextId) ∧
     (data = [] → V2.loadEquityChart s data = s)) := by
  intro s data hinv
  obtain ⟨cur, alive, nid⟩ := s
  rcases alive with _ | ⟨a, _ | ⟨b, rest⟩⟩ <;> rcases cur with _ | c <;>
    simp [chartInv] at hinv <;>
    rcases data with _ | ⟨p, ps⟩ <;>
    simp_all [V1.renderEquityChart, V2.loadEquityChart, ChartState.destroyCurrent,
      ChartState.create, chartInv, List.erase] <;>
    omega

/-- C3 amended witness -/
theorem claim_C3_amended_witness :
    chartInv oneChartState = true ∧
    chartInv (V1.renderEquityChart oneChartState [⟨"1/1", 100⟩]) = true ∧
    (V1.renderEquityChart oneChartState []).alive = [] :=
  ⟨by decide,
   (claim_C3_amended oneChartState [⟨"1/1", 100⟩] (by decide)).1,
   ((claim_C3_amended oneChartState [] (by decide)).2.2.2.2.2.2.1 rfl).1⟩

/-- C4 counterexample: the first variant's refresh-button click handler calls
`loadAllData` unconditionally, so a manual refresh request delivered while the
busy flag is set is not dropped. -/
theorem claim_C4_counterexample :
    ¬ (V1.refreshClickHandlerIssues true = false) := by
  decide

/-- C4 amended: only the first variant's scheduled tick consults the busy
flag (and document visibility) and is dropped while a refresh is in flight;
the first variant's manual refresh handler is unguarded (a click is only kept
out by the busy flag disabling the button's pointer events), and the class
variant issues both scheduled and manual refreshes unconditionally. -/
theorem claim_C4_amended : ∀ loading visible : Bool,
    (V1.autoRefreshTickIssues true visible = false) ∧
    (V1.autoRefreshTickIssues loading visible = (!loading && visible)) ∧
    (V1.refreshClickHandlerIssues loading = true) ∧
    (V1.refreshButtonClickable loading = !loading) ∧
    (V2.autoRefreshTickIssues loading = true) ∧
    (V2.refreshClickHandlerIssues loading = true) := by
  decide
end Trading
